import Mathlib

/-!
Verification of the closed-loop AI extraction stage of the repository
(`src/core/ai.py`) against its natural-language specification.

The Python module is shallowly embedded:
* JSON values produced by `json.loads` are the inductive type `JValue`.
  Python's `bool` is a subclass of `int`, so the numeric `isinstance`
  checks accept booleans; this is modelled explicitly.  Floats are
  modelled by rationals (only order comparisons on them occur).
* The `requests`-backed providers are external collaborators; the
  controller is parametrised by a stub provider (a function from the
  message list to raw output), as the spec's design notes prescribe for
  testing.  Raw provider text is modelled together with the outcome of
  `json.loads` on it, since the parser is an external library.
* Prompt rendering to flat strings is abstracted: a message's content
  records which builder produced it and that builder's arguments.
* Strings are treated as ASCII for `str.lower`, `str.strip` and the
  `re` word/digit/space character classes.
-/

/-- A JSON value as produced by Python's `json.loads`.  `bool` is kept
separate from `int` because Python distinguishes them, but `bool` is a
subclass of `int`, which the validator's `isinstance` checks observe. -/
inductive JValue where
  | null
  | bool (b : Bool)
  | int (n : Int)
  | float (q : ℚ)
  | str (s : String)
  | arr (elems : List JValue)
  | obj (fields : List (String × JValue))

/-- Python `dict.get(key)` (returns `None`, i.e. `none`, when absent).
Keys of a Python dict are unique; lookup takes the first binding. -/
def dictGet : List (String × JValue) → String → Option JValue
  | [], _ => none
  | (k, v) :: rest, key => if k = key then some v else dictGet rest key

/-- Python `d[key] = v`: replace the value of an existing key in place,
else append the binding. -/
def dictSet : List (String × JValue) → String → JValue → List (String × JValue)
  | [], key, v => [(key, v)]
  | (k, w) :: rest, key, v =>
      if k = key then (k, v) :: rest else (k, w) :: dictSet rest key v

/-- `isinstance(x, int)` (booleans count), with the numeric value used in
the comparisons `y < 1990` etc. -/
def asIntVal : JValue → Option Int
  | .int n => some n
  | .bool b => some (if b then 1 else 0)
  | _ => none

/-- `isinstance(x, (int, float))` (booleans count), with the numeric value
used in the comparisons `c < 0`, `c > 1`. -/
def asNumVal : JValue → Option ℚ
  | .int n => some (n : ℚ)
  | .float q => some q
  | .bool b => some (if b then 1 else 0)
  | _ => none

/-- `m.get("name") in ["Scope 1","Scope 2 (location)","Scope 2 (market)","Scope 3"]`. -/
def validName : Option JValue → Bool
  | some (.str s) =>
      s == "Scope 1" || s == "Scope 2 (location)" || s == "Scope 2 (market)" || s == "Scope 3"
  | _ => false

/-- `isinstance(m.get("value"), (int, float))`. -/
def isNumberV : Option JValue → Bool
  | some (.int _) => true
  | some (.float _) => true
  | some (.bool _) => true
  | _ => false

/-- `m.get("unit") in ["tCO2e","ktCO2e","MtCO2e"]`. -/
def validUnit : Option JValue → Bool
  | some (.str s) => s == "tCO2e" || s == "ktCO2e" || s == "MtCO2e"
  | _ => false

/-- `isinstance(y, int) and 1990 <= y <= 2100`. -/
def yearOk (o : Option JValue) : Bool :=
  match o with
  | some v =>
      match asIntVal v with
      | some y => decide (1990 ≤ y) && decide (y ≤ 2100)
      | none => false
  | none => false

/-- `isinstance(p, int) and p >= 1`. -/
def pageOk (o : Option JValue) : Bool :=
  match o with
  | some v =>
      match asIntVal v with
      | some p => decide (1 ≤ p)
      | none => false
  | none => false

/-- `c = m.get("confidence", None)`; valid when `c is None` (absent key or
JSON `null`) or numeric in `[0, 1]`. -/
def confOk (o : Option JValue) : Bool :=
  match o with
  | none => true
  | some .null => true
  | some v =>
      match asNumVal v with
      | some c => decide (0 ≤ c) && decide (c ≤ 1)
      | none => false

/-- `_is_valid_metric` of `src/core/ai.py` (lines 53-74): `none` when the
metric dict is valid, else the first failing check's error string.  On a
non-dict argument, `m.get` raises and the surrounding `except` returns an
`"exception: ..."` string (its exact rendering is abstracted). -/
def is_valid_metric (m : JValue) : Option String :=
  match m with
  | .obj fields =>
      if !validName (dictGet fields "name") then some "invalid name"
      else if !isNumberV (dictGet fields "value") then some "value must be number"
      else if !validUnit (dictGet fields "unit") then some "invalid unit"
      else if !yearOk (dictGet fields "year") then some "invalid year"
      else if !pageOk (dictGet fields "page") then some "invalid page"
      else if !confOk (dictGet fields "confidence") then some "invalid confidence"
      else none
  | _ => some "exception: object has no attribute get"

/-- The `for idx, m in enumerate(metrics)` loop of `_validate_payload`,
with `idx` starting at `start`. -/
def metricErrors : Nat → List JValue → List String
  | _, [] => []
  | idx, m :: rest =>
      match m with
      | .obj _ =>
          match is_valid_metric m with
          | some e => ("metrics[" ++ toString idx ++ "] " ++ e) :: metricErrors (idx + 1) rest
          | none => metricErrors (idx + 1) rest
      | _ => ("metrics[" ++ toString idx ++ "] not an object") :: metricErrors (idx + 1) rest

/-- `_validate_payload` of `src/core/ai.py` (lines 76-90). -/
def validate_payload (payload : JValue) : List String :=
  match payload with
  | .obj fields =>
      match dictGet fields "metrics" with
      | some (.arr ms) => metricErrors 0 ms
      | _ => ["metrics must be an array"]
  | _ => ["payload is not an object"]

example :
    is_valid_metric (.obj [("name", .str "Scope 1"), ("value", .int 100),
      ("unit", .str "tCO2e"), ("year", .int 2023), ("page", .int 1)]) = none := by decide

example :
    is_valid_metric (.obj [("name", .str "Scope 9")]) = some "invalid name" := by decide

example :
    validate_payload (.obj [("metrics", .arr [.obj [("name", .str "Scope 9")], .int 7])]) =
      ["metrics[0] invalid name", "metrics[1] not an object"] := by decide

example : validate_payload (.obj [("metrics", .int 5)]) = ["metrics must be an array"] := by decide

example : validate_payload (.arr []) = ["payload is not an object"] := by decide

/-- Python `str.lower()` (ASCII). -/
def lowerStr (s : String) : String := ⟨s.data.map Char.toLower⟩

/-- Python `pat in s` substring containment, on character lists. -/
def containsSub : List Char → List Char → Bool
  | [], pat => pat.isEmpty
  | s@(_ :: rest), pat => pat.isPrefixOf s || containsSub rest pat

/-- The `re` module's `\w` class (ASCII). -/
def isWordChar (c : Char) : Bool := c.isAlpha || c.isDigit || c = '_'

/-- The `re` module's `\s` class (ASCII). -/
def isSpaceChar (c : Char) : Bool :=
  c = ' ' || c = '\t' || c = '\n' || c = '\x0b' || c = '\x0c' || c = '\r'

/-- A word boundary `\b` before a word character: start of string or a
preceding non-word character (`prev` is the preceding character). -/
def boundaryBefore : Option Char → Bool
  | none => true
  | some p => !isWordChar p

/-- Does `20\d{2}\b` match at the start of the character list? -/
def yearMatchHere : List Char → Bool
  | '2' :: '0' :: c :: d :: rest =>
      c.isDigit && d.isDigit &&
        (match rest with
         | [] => true
         | e :: _ => !isWordChar e)
  | _ => false

/-- `re.search(r"\b20\d{2}\b", s)` scanning with the previous character. -/
def searchYearFrom : Option Char → List Char → Bool
  | _, [] => false
  | prev, c :: rest =>
      (boundaryBefore prev && yearMatchHere (c :: rest)) || searchYearFrom (some c) rest

/-- `re.search(r"\b20\d{2}\b", ln)` as a Boolean (match existence). -/
def searchYear (s : String) : Bool := searchYearFrom none s.data

/-- Does one of `tco2e|ktco2e|mtco2e` match at the start, followed by a
word boundary? -/
def unitMatchHere (s : List Char) : Bool :=
  ["tco2e", "ktco2e", "mtco2e"].any fun u =>
    u.data.isPrefixOf s &&
      (match s.drop u.length with
       | [] => true
       | c :: _ => !isWordChar c)

/-- After `\s*`: the unit alternation must match here or after more space. -/
def afterSpaces : List Char → Bool
  | [] => unitMatchHere []
  | s@(c :: rest) => unitMatchHere s || (isSpaceChar c && afterSpaces rest)

/-- After the leading `\d` of the number pattern: some split of `[\d,\.]*`
then `\s*` then the unit alternation (existence over all splits). -/
def afterDigits : List Char → Bool
  | [] => afterSpaces []
  | s@(c :: rest) =>
      afterSpaces s || ((c.isDigit || c = ',' || c = '.') && afterDigits rest)

/-- `re.search(r"\b\d[\d,\.]*\s*(tco2e|ktco2e|mtco2e)\b", s)` scanning with
the previous character. -/
def searchNumUnitFrom : Option Char → List Char → Bool
  | _, [] => false
  | prev, c :: rest =>
      (boundaryBefore prev && c.isDigit && afterDigits rest) || searchNumUnitFrom (some c) rest

/-- `re.search(r"\b\d[\d,\.]*\s*(tco2e|ktco2e|mtco2e)\b", low)` as a Boolean. -/
def searchNumUnit (s : String) : Bool := searchNumUnitFrom none s.data

/-- The line relevance test of `shortlist_snippets` (line 114 of
`src/core/ai.py`): `("scope" in low) or ("co2e" in low) or
re.search(r"\b20\d{2}\b", ln) or re.search(r"\b\d[\d,\.]*\s*(tco2e|ktco2e|mtco2e)\b", low)`. -/
def lineHit (ln : String) : Bool :=
  let low := lowerStr ln
  containsSub low.data "scope".data || containsSub low.data "co2e".data ||
    searchYear ln || searchNumUnit low

/-- The table-row relevance test (line 126): `("scope" in low) or
("co2e" in low) or re.search(r"\b20\d{2}\b", row_txt)`. -/
def rowHit (rowTxt : String) : Bool :=
  let low := lowerStr rowTxt
  containsSub low.data "scope".data || containsSub low.data "co2e".data || searchYear rowTxt

/-- Python `" ".join(...)`. -/
def joinSpace : List String → String
  | [] => ""
  | [s] => s
  | s :: rest => s ++ " " ++ joinSpace rest

/-- Python `str.strip()` (ASCII whitespace). -/
def stripStr (s : String) : String :=
  ⟨((s.data.dropWhile isSpaceChar).reverse.dropWhile isSpaceChar).reverse⟩

/-- One page of the Stage-1 extraction: `{"page": int, "lines": [...],
"tables": [...]}`.  A table is a list of rows; a cell is `none` for
Python `None` (skipped by the row join) and otherwise carries its
`str(...)` rendering. -/
structure Page where
  page : Int
  lines : List String
  tables : List (List (List (Option String)))

/-- The Stage-1 extracted corpus `{"pages": [...]}` read by
`shortlist_snippets`. -/
structure Extracted where
  pages : List Page

/-- `out.append(snip)` followed by `if len(out) >= limit: return out`
(`.error` is the early function return carrying the returned list). -/
def pushSnippet (limit : Nat) (out : List String) (snip : String) :
    Except (List String) (List String) :=
  let out2 := out ++ [snip]
  if limit ≤ out2.length then .error out2 else .ok out2

/-- The `for i, ln in enumerate(lines)` loop of `shortlist_snippets`
(lines 112-119): the list still to iterate is walked with the running
index `i`, while the window `lines[max(0, i-2): i+3]` is sliced from the
full list `lines`; on a hit, the window is joined with spaces, stripped,
and appended when nonempty. -/
def scanLines (pageNo : Int) (lines : List String) (limit : Nat) :
    List String → Nat → List String → Except (List String) (List String)
  | [], _, out => .ok out
  | ln :: todo, i, out =>
      if lineHit ln then
        let w := stripStr (joinSpace ((lines.drop (i - 2)).take (i + 3 - (i - 2))))
        if w ≠ "" then
          match pushSnippet limit out ("[p" ++ toString pageNo ++ "] " ++ w) with
          | .error o => .error o
          | .ok o => scanLines pageNo lines limit todo (i + 1) o
        else scanLines pageNo lines limit todo (i + 1) out
      else scanLines pageNo lines limit todo (i + 1) out

/-- The `for row in tbl[:5]` loop (lines 123-129): the row's non-`None`
cells joined with spaces; appended on a row hit. -/
def scanRows (pageNo : Int) (limit : Nat) :
    List (List (Option String)) → List String → Except (List String) (List String)
  | [], out => .ok out
  | row :: rest, out =>
      let rowTxt := joinSpace (row.filterMap id)
      if rowHit rowTxt then
        match pushSnippet limit out ("[p" ++ toString pageNo ++ "] " ++ rowTxt) with
        | .error o => .error o
        | .ok o => scanRows pageNo limit rest o
      else scanRows pageNo limit rest out

/-- The `for tbl in page_obj.get("tables", []) or []` loop (line 121):
only the first five rows of each table are scanned. -/
def scanTables (pageNo : Int) (limit : Nat) :
    List (List (List (Option String))) → List String → Except (List String) (List String)
  | [], out => .ok out
  | tbl :: rest, out =>
      match scanRows pageNo limit (tbl.take 5) out with
      | .error o => .error o
      | .ok o => scanTables pageNo limit rest o

/-- The `for page_obj in pages` loop of `shortlist_snippets`. -/
def scanPages (limit : Nat) : List Page → List String → Except (List String) (List String)
  | [], out => .ok out
  | pg :: rest, out =>
      match scanLines pg.page pg.lines limit pg.lines 0 out with
      | .error o => .error o
      | .ok o =>
          match scanTables pg.page limit pg.tables o with
          | .error o2 => .error o2
          | .ok o2 => scanPages limit rest o2

/-- `shortlist_snippets` of `src/core/ai.py` (lines 95-130).  An early
`return out` (when `len(out) >= limit` right after an append) surfaces as
the `.error` branch; the fall-through return is `out[:limit]`. -/
def shortlist_snippets (extracted : Extracted) (limit : Nat) : List String :=
  match scanPages limit extracted.pages [] with
  | .error o => o
  | .ok o => o.take limit

example : lineHit "Scope 1 emissions: 1,234.5 tCO2e" = true := by decide

example : lineHit "total 2023 result" = true := by decide

example : lineHit "in 12023x" = false := by decide

example : lineHit "ghg emissions: 9" = false := by decide

example : lineHit "scope" = true := by decide

example : lineHit "1,234 tCO2e" = true := by decide

example : lineHit "1,234 tCO2ex" = true := by decide

example : searchNumUnit "1,234 tco2ex" = false := by decide

example : searchNumUnit "1,234  tco2e." = true := by decide

example :
    shortlist_snippets ⟨[⟨1, ["scope 1", "scope 1"], []⟩]⟩ 30 =
      ["[p1] scope 1 scope 1", "[p1] scope 1 scope 1"] := by decide

example : shortlist_snippets ⟨[⟨1, ["scope 1"], []⟩]⟩ 0 = ["[p1] scope 1"] := by decide

example :
    shortlist_snippets ⟨[⟨3, [], [[[some "Scope", some "2023"], [none]], [[some "x"]]]⟩]⟩ 30 =
      ["[p3] Scope 2023"] := by decide

/-- The second argument of `build_repair_prompt`: either the raw text of
an unparseable attempt (`last`) or `json.dumps(payload)` of the last
parsed payload. -/
inductive RepairSeed where
  | rawText (t : String)
  | reserialized (p : JValue)

/-- A message's content, recorded as the prompt builder that produced it
together with that builder's arguments (`build_system_prompt`,
`build_user_prompt(snippets)`, `build_repair_prompt(errors, last_json)`
of lines 135-169); the rendering of the content to one flat string is
abstracted. -/
inductive MsgContent where
  | systemPrompt
  | userPrompt (snippets : List String)
  | repairPrompt (errors : List String) (last : RepairSeed)

/-- One `{"role": ..., "content": ...}` message dict. -/
structure Msg where
  role : String
  content : MsgContent

/-- Raw provider output text, modelled together with the outcome of
`json.loads` on it: either it parses to a value, or it fails with the
raw text and the decode-error detail that `json.JSONDecodeError` renders. -/
inductive Raw where
  | parses (v : JValue)
  | fails (text : String) (err : String)

/-- How one run of `extract_metrics_from_extracted` ends: a returned
payload dict, the re-raised `json.JSONDecodeError` on exhausted budget,
or the uncaught `TypeError`/`AttributeError` that the fallback filter
raises when the final payload is not a dict or its `"metrics"` value is
neither a list nor otherwise iterable. -/
inductive RunResult where
  | payload (p : JValue)
  | decodeError (text : String) (err : String)
  | crash

/-- `true` exactly on a normally returned payload. -/
def isPayloadResult : RunResult → Bool
  | .payload _ => true
  | _ => false

/-- The fallback of lines 256-258:
`payload["metrics"] = [m for m in payload.get("metrics", []) if not _is_valid_metric(m)]`.
Iterating a string yields its characters and iterating a dict yields its
keys, each of which `_is_valid_metric` rejects (its `except` catches the
`AttributeError`), so those cases filter to `[]`; a number, boolean or
`null` value is not iterable (`TypeError`), and a non-dict payload has no
`.get` (`AttributeError`) — both crash. -/
def fallback_filter (payload : JValue) : RunResult :=
  match payload with
  | .obj fields =>
      match dictGet fields "metrics" with
      | none => .payload (.obj (dictSet fields "metrics" (.arr [])))
      | some (.arr ms) =>
          .payload (.obj (dictSet fields "metrics"
            (.arr (ms.filter fun m => (is_valid_metric m).isNone))))
      | some (.str _) => .payload (.obj (dictSet fields "metrics" (.arr [])))
      | some (.obj _) => .payload (.obj (dictSet fields "metrics" (.arr [])))
      | some _ => .crash
  | _ => .crash

/-- The `while True` loop of `extract_metrics_from_extracted` (lines
241-262).  `budget` is `max_repairs - attempts` (the Python guard
`attempts >= max_repairs` is `budget = 0`); `llm` is the injected
provider stub standing for `llm_complete`.  Besides the run's outcome,
the list of message lists passed to the provider inside the loop is
returned (the call trace, one entry per repair attempt). -/
def extract_loop (llm : List Msg → Raw) (sysMsg userMsg : Msg) :
    Nat → Raw → RunResult × List (List Msg)
  | budget, .fails text err =>
      (match budget with
       | 0 => (.decodeError text err, [])
       | b + 1 =>
          let msgs := [sysMsg, userMsg,
            ⟨"user", .repairPrompt ["json decode error: " ++ err] (.rawText text)⟩]
          let r := extract_loop llm sysMsg userMsg b (llm msgs)
          (r.1, msgs :: r.2))
  | budget, .parses payload =>
      if (validate_payload payload).isEmpty then (.payload payload, [])
      else
        match budget with
        | 0 => (fallback_filter payload, [])
        | b + 1 =>
            let msgs := [sysMsg, userMsg,
              ⟨"user", .repairPrompt (validate_payload payload) (.reserialized payload)⟩]
            let r := extract_loop llm sysMsg userMsg b (llm msgs)
            (r.1, msgs :: r.2)

/-- `extract_metrics_from_extracted` of `src/core/ai.py` (lines 233-262),
parametrised by the provider stub `llm` for `llm_complete`.  The second
component is the full provider call trace: the initial
`[sys_msg, user_msg]` call followed by the repair calls. -/
def extract_metrics_from_extracted (llm : List Msg → Raw) (extracted : Extracted)
    (max_repairs : Nat) : RunResult × List (List Msg) :=
  let snippets := shortlist_snippets extracted 30
  let sysMsg : Msg := ⟨"system", .systemPrompt⟩
  let userMsg : Msg := ⟨"user", .userPrompt snippets⟩
  let firstCall := [sysMsg, userMsg]
  let r := extract_loop llm sysMsg userMsg max_repairs (llm firstCall)
  (r.1, firstCall :: r.2)

/-- What `llm_complete` does, with the network layer abstracted: each
`_call_*` wrapper is recorded as the request it would issue (the
`requests.post` round-trip is an external collaborator). -/
inductive ProviderAction where
  | callOpenAICompatible (messages : List Msg)
  | callCohere (messages : List Msg)
  | callOllama (messages : List Msg) (model : String)
  | raiseUnknownProvider (message : String)

/-- `llm_complete` of `src/core/ai.py` (lines 219-227), with the
module-level `PROVIDER` and `MODEL` configuration passed explicitly. -/
def llm_complete (provider model : String) (messages : List Msg) : ProviderAction :=
  if provider = "openai-compatible" then .callOpenAICompatible messages
  else if provider = "cohere" then .callCohere messages
  else if provider = "ollama" then .callOllama messages model
  else .raiseUnknownProvider ("Unknown PROVIDER: " ++ provider)

/-- Modelled from the spec: the line-relevance predicate exactly as the
spec's words state it ("a line is a candidate if it matches any of a
keyword set (scope labels, emission-unit tokens, "emissions"/"ghg") AND
contains at least one digit, OR matches a 4-digit-year pattern, OR
matches a number-immediately-followed-by-unit pattern"), written only
for comparison with the code's `lineHit`. -/
def specLineHit (ln : String) : Bool :=
  let low := lowerStr ln
  ((containsSub low.data "scope".data || containsSub low.data "tco2e".data ||
      containsSub low.data "ktco2e".data || containsSub low.data "mtco2e".data ||
      containsSub low.data "emissions".data || containsSub low.data "ghg".data) &&
    ln.data.any Char.isDigit) ||
  searchYear ln || searchNumUnit low

/-- A page with every table truncated to its first five rows. -/
def truncPage (p : Page) : Page := ⟨p.page, p.lines, p.tables.map (List.take 5)⟩

/-- A corpus with every table truncated to its first five rows. -/
def truncTables (e : Extracted) : Extracted := ⟨e.pages.map truncPage⟩

example :
    extract_metrics_from_extracted (fun _ => .parses (.obj [("metrics", .arr [])])) ⟨[]⟩ 2 =
      (.payload (.obj [("metrics", .arr [])]),
        [[⟨"system", .systemPrompt⟩, ⟨"user", .userPrompt []⟩]]) := rfl

example :
    (extract_metrics_from_extracted (fun msgs => .fails (toString msgs.length) "e")
        ⟨[]⟩ 2).2.map List.length = [2, 3, 3] := rfl

example :
    (extract_metrics_from_extracted (fun msgs => .fails (toString msgs.length) "e")
        ⟨[]⟩ 2).1 = .decodeError "3" "e" := rfl

example :
    (extract_metrics_from_extracted (fun _ => .parses (.obj [("metrics", .int 5)]))
        ⟨[]⟩ 2).1 = .crash := rfl

example :
    (extract_metrics_from_extracted (fun _ => .parses (.obj [("metrics",
        .arr [.obj [("name", .str "Scope 1"), ("value", .int 100), ("unit", .str "tCO2e"),
                    ("year", .int 2023), ("page", .int 1)],
              .obj [("name", .str "Scope 9")]])]))
        ⟨[]⟩ 2).1 =
      .payload (.obj [("metrics",
        .arr [.obj [("name", .str "Scope 1"), ("value", .int 100), ("unit", .str "tCO2e"),
                    ("year", .int 2023), ("page", .int 1)]])]) := rfl

/-- A metric dict that passes every check of `_is_valid_metric`. -/
def scope1Metric : JValue :=
  .obj [("name", .str "Scope 1"), ("value", .int 100), ("unit", .str "tCO2e"),
        ("year", .int 2023), ("page", .int 1)]

/-- A metric dict rejected by `_is_valid_metric` (name outside the enum). -/
def invalidNameMetric : JValue := .obj [("name", .str "Scope 9")]

/-- A payload with one valid metric. -/
def payloadOneMetric : JValue := .obj [("metrics", .arr [scope1Metric])]

lemma extract_loop_trace_length (llm : List Msg → Raw) (s u : Msg) :
    ∀ (b : Nat) (r : Raw), (extract_loop llm s u b r).2.length ≤ b := by
  intro b
  induction b with
  | zero =>
    intro r
    cases r with
    | fails t e => simp [extract_loop]
    | parses p => by_cases h : (validate_payload p).isEmpty <;> simp [extract_loop, h]
  | succ n ih =>
    intro r
    cases r with
    | fails t e =>
      simp only [extract_loop, List.length_cons]
      exact Nat.succ_le_succ (ih _)
    | parses p =>
      by_cases h : (validate_payload p).isEmpty
      · simp [extract_loop, h]
      · simp only [extract_loop, h, Bool.false_eq_true, if_false, List.length_cons]
        exact Nat.succ_le_succ (ih _)

lemma extract_loop_exhausts (llm : List Msg → Raw) (s u : Msg) :
    ∀ (b : Nat) (r : Raw), isPayloadResult (extract_loop llm s u b r).1 = false →
      (extract_loop llm s u b r).2.length = b := by
  intro b
  induction b with
  | zero =>
    intro r _
    cases r with
    | fails t e => simp [extract_loop]
    | parses p => by_cases h : (validate_payload p).isEmpty <;> simp [extract_loop, h]
  | succ n ih =>
    intro r hr
    cases r with
    | fails t e =>
      simp only [extract_loop, List.length_cons]
      simp only [extract_loop] at hr
      exact congrArg Nat.succ (ih _ hr)
    | parses p =>
      by_cases h : (validate_payload p).isEmpty
      · simp [extract_loop, h, isPayloadResult] at hr
      · simp only [extract_loop, h, Bool.false_eq_true, if_false, List.length_cons] at hr ⊢
        exact congrArg Nat.succ (ih _ hr)

lemma extract_loop_calls_shape (llm : List Msg → Raw) (s u : Msg) :
    ∀ (b : Nat) (r : Raw) (c : List Msg), c ∈ (extract_loop llm s u b r).2 →
      ∃ errs seed, c = [s, u, ⟨"user", .repairPrompt errs seed⟩] := by
  intro b
  induction b with
  | zero =>
    intro r c hc
    exfalso
    cases r with
    | fails t e => simp [extract_loop] at hc
    | parses p => by_cases h : (validate_payload p).isEmpty <;> simp [extract_loop, h] at hc
  | succ n ih =>
    intro r c hc
    cases r with
    | fails t e =>
      simp only [extract_loop, List.mem_cons] at hc
      rcases hc with hc | hc
      · exact ⟨_, _, hc⟩
      · exact ih _ _ hc
    | parses p =>
      by_cases h : (validate_payload p).isEmpty
      · simp [extract_loop, h] at hc
      · simp only [extract_loop, h, Bool.false_eq_true, if_false, List.mem_cons] at hc
        rcases hc with hc | hc
        · exact ⟨_, _, hc⟩
        · exact ih _ _ hc

/-- Claim C1, counterexample: on a corpus whose shortlist is empty (`pages` is
empty), `extract_metrics_from_extracted` still invokes the provider — the
call trace holds the initial `[sys_msg, user_msg]` call — and returns
whatever the provider's validated payload holds, here one metric, not an
empty metrics sequence. -/
theorem provider_called_despite_empty_shortlist_cex :
    shortlist_snippets ⟨[]⟩ 30 = [] ∧
    extract_metrics_from_extracted (fun _ => .parses payloadOneMetric) ⟨[]⟩ 2 =
      (.payload payloadOneMetric,
        [[⟨"system", .systemPrompt⟩, ⟨"user", .userPrompt []⟩]]) :=
  ⟨rfl, rfl⟩

/-- Claim C1, amended: when the shortlist is empty the controller does not
short-circuit; its first provider call is still made, carrying the system
prompt and a user prompt built from the empty snippet list. -/
theorem first_call_made_on_empty_shortlist (llm : List Msg → Raw) (e : Extracted)
    (mr : Nat) (h : shortlist_snippets e 30 = []) :
    ((extract_metrics_from_extracted llm e mr).2).head? =
      some [⟨"system", .systemPrompt⟩, ⟨"user", .userPrompt []⟩] := by
  simp [extract_metrics_from_extracted, h]

/-- Witness for C1's amended theorem at the empty corpus. -/
theorem first_call_made_on_empty_shortlist_witness :
    ((extract_metrics_from_extracted (fun _ => .parses payloadOneMetric) ⟨[]⟩ 2).2).head? =
      some [⟨"system", .systemPrompt⟩, ⟨"user", .userPrompt []⟩] :=
  first_call_made_on_empty_shortlist _ _ _ rfl

/-- Claim C2, counterexample: with a provider stub that always fails to parse,
a `max_repairs = 2` run makes three calls of 2, 3 and 3 messages — the
second repair call (index 2) carries only the latest repair prompt, not
the claimed four messages with both prior repair turns. -/
theorem conversation_not_accumulated_cex :
    (extract_metrics_from_extracted (fun msgs => .fails (toString msgs.length) "e")
        ⟨[]⟩ 2).2.map List.length = [2, 3, 3] ∧
    (extract_metrics_from_extracted (fun msgs => .fails (toString msgs.length) "e")
        ⟨[]⟩ 2).2[2]? =
      some [⟨"system", .systemPrompt⟩, ⟨"user", .userPrompt []⟩,
            ⟨"user", .repairPrompt ["json decode error: e"] (.rawText "3")⟩] :=
  ⟨rfl, rfl⟩

/-- Claim C2, amended: every provider call after the first consists of exactly
three messages — the system message, the user message, and the current
repair prompt; earlier repair turns are not retained in the message list
(the previous attempt is visible only inside the repair prompt's
embedded last-JSON argument). -/
theorem repair_calls_are_three_messages (llm : List Msg → Raw) (e : Extracted)
    (mr i : Nat) (c : List Msg)
    (h : ((extract_metrics_from_extracted llm e mr).2)[i + 1]? = some c) :
    ∃ errs seed, c = [⟨"system", .systemPrompt⟩,
      ⟨"user", .userPrompt (shortlist_snippets e 30)⟩,
      ⟨"user", .repairPrompt errs seed⟩] := by
  have h' : (extract_loop llm ⟨"system", .systemPrompt⟩
      ⟨"user", .userPrompt (shortlist_snippets e 30)⟩ mr
      (llm [⟨"system", .systemPrompt⟩,
            ⟨"user", .userPrompt (shortlist_snippets e 30)⟩])).2[i]? = some c := by
    simpa [extract_metrics_from_extracted] using h
  exact extract_loop_calls_shape _ _ _ _ _ _ (List.getElem?_mem h')

/-- Witness for C2's amended theorem: the second repair call of the
always-failing run. -/
theorem repair_calls_are_three_messages_witness :
    ∃ errs seed,
      ([⟨"system", .systemPrompt⟩, ⟨"user", .userPrompt []⟩,
        ⟨"user", .repairPrompt ["json decode error: e"] (.rawText "2")⟩] : List Msg) =
      [⟨"system", .systemPrompt⟩, ⟨"user", .userPrompt (shortlist_snippets ⟨[]⟩ 30)⟩,
        ⟨"user", .repairPrompt errs seed⟩] :=
  repair_calls_are_three_messages (fun msgs => .fails (toString msgs.length) "e")
    ⟨[]⟩ 2 0 _ rfl

/-- Claim C3, code-bug evidence: after the shared budget is exhausted with a
still-invalid payload, a `"metrics"` value that is not a list makes the
fallback comprehension `[m for m in payload.get("metrics", []) ...]`
raise (iterating an `int` is a `TypeError`) instead of returning a
best-effort payload; with a genuine metrics array the fallback does
return exactly the `_is_valid_metric`-passing subset in order. -/
theorem fallback_crashes_on_nonlist_metrics :
    (extract_metrics_from_extracted (fun _ => .parses (.obj [("metrics", .int 5)]))
        ⟨[]⟩ 2).1 = .crash ∧
    validate_payload (.obj [("metrics", .int 5)]) = ["metrics must be an array"] ∧
    (extract_metrics_from_extracted
        (fun _ => .parses (.obj [("metrics", .arr [scope1Metric, invalidNameMetric])]))
        ⟨[]⟩ 2).1 = .payload (.obj [("metrics", .arr [scope1Metric])]) :=
  ⟨rfl, rfl, rfl⟩

/-- Claim C4, counterexample: a run can terminate on budget exhaustion with an
uncaught `TypeError`/`AttributeError` (here the payload is a JSON array,
so the fallback's `payload.get` raises), an outcome that is neither a
returned payload nor a decode error. -/
theorem nonpayload_nondecode_outcome_cex :
    (extract_metrics_from_extracted (fun _ => .parses (.arr [.int 1])) ⟨[]⟩ 2).1 = .crash ∧
    (extract_metrics_from_extracted (fun _ => .parses (.arr [.int 1])) ⟨[]⟩ 2).2.length = 3 :=
  ⟨rfl, rfl⟩

/-- Claim C4, amended: for every provider stub, corpus and budget the run makes
at most `max_repairs + 1` provider calls, and any outcome other than a
returned payload (the re-raised decode error, or the fallback's
type/attribute error) occurs only once the shared attempt counter has
reached `max_repairs`, i.e. after exactly `max_repairs + 1` calls. -/
theorem extract_call_bound (llm : List Msg → Raw) (e : Extracted) (mr : Nat) :
    (extract_metrics_from_extracted llm e mr).2.length ≤ mr + 1 ∧
      (isPayloadResult (extract_metrics_from_extracted llm e mr).1 = false →
        (extract_metrics_from_extracted llm e mr).2.length = mr + 1) := by
  constructor
  · simp only [extract_metrics_from_extracted, List.length_cons]
    exact Nat.succ_le_succ (extract_loop_trace_length _ _ _ _ _)
  · intro h
    simp only [extract_metrics_from_extracted, List.length_cons] at h ⊢
    exact congrArg Nat.succ (extract_loop_exhausts _ _ _ _ _ h)

/-- Witness for C4's amended theorem on an always-unparseable stub. -/
theorem extract_call_bound_witness :
    (extract_metrics_from_extracted (fun _ => .fails "x" "e") ⟨[]⟩ 2).2.length ≤ 3 ∧
    (extract_metrics_from_extracted (fun _ => .fails "x" "e") ⟨[]⟩ 2).2.length = 3 :=
  ⟨(extract_call_bound _ _ _).1, (extract_call_bound _ _ _).2 rfl⟩

/-- Claim C7: when the first provider response parses and validates with no
errors, the controller returns that payload unchanged and the whole run
consists of the single initial provider call — no repair turns. -/
theorem first_attempt_valid_returns_unchanged (llm : List Msg → Raw) (e : Extracted)
    (mr : Nat) (p : JValue)
    (h1 : llm [⟨"system", .systemPrompt⟩,
               ⟨"user", .userPrompt (shortlist_snippets e 30)⟩] = .parses p)
    (h2 : validate_payload p = []) :
    extract_metrics_from_extracted llm e mr =
      (.payload p, [[⟨"system", .systemPrompt⟩,
                     ⟨"user", .userPrompt (shortlist_snippets e 30)⟩]]) := by
  have hv : ∀ (s u : Msg), extract_loop llm s u mr (.parses p) = (.payload p, []) := by
    intro s u
    cases mr <;> simp [extract_loop, h2]
  simp [extract_metrics_from_extracted, h1, hv]

/-- Witness for C7 with a stub answering an empty valid payload. -/
theorem first_attempt_valid_returns_unchanged_witness :
    extract_metrics_from_extracted (fun _ => .parses (.obj [("metrics", .arr [])])) ⟨[]⟩ 2 =
      (.payload (.obj [("metrics", .arr [])]),
        [[⟨"system", .systemPrompt⟩,
          ⟨"user", .userPrompt (shortlist_snippets ⟨[]⟩ 30)⟩]]) :=
  first_attempt_valid_returns_unchanged _ _ _ _ rfl rfl

lemma is_valid_metric_obj_of_none {m : JValue} (h : is_valid_metric m = none) :
    ∃ kvs, m = .obj kvs := by
  cases m <;> simp [is_valid_metric] at h ⊢

lemma metricErrors_nil_of_valid :
    ∀ (start : Nat) (ms : List JValue), (∀ m ∈ ms, is_valid_metric m = none) →
      metricErrors start ms = [] := by
  intro start ms
  induction ms generalizing start with
  | nil => intro _; simp [metricErrors]
  | cons m rest ih =>
    intro h
    have hm : is_valid_metric m = none := h m (List.mem_cons_self _ _)
    obtain ⟨kvs, rfl⟩ := is_valid_metric_obj_of_none hm
    simp only [metricErrors, hm]
    exact ih _ fun x hx => h x (List.mem_cons_of_mem _ hx)

lemma metricErrors_cons_superset (m0 : JValue) (rest : List JValue) (start : Nat)
    (x : String) (hx : x ∈ metricErrors (start + 1) rest) :
    x ∈ metricErrors start (m0 :: rest) := by
  cases m0 with
  | obj f =>
    cases hv : is_valid_metric (.obj f) with
    | none => simpa [metricErrors, hv] using hx
    | some e =>
      simp only [metricErrors, hv]
      exact List.mem_cons_of_mem _ hx
  | null => exact List.mem_cons_of_mem _ hx
  | bool b => exact List.mem_cons_of_mem _ hx
  | int n => exact List.mem_cons_of_mem _ hx
  | float q => exact List.mem_cons_of_mem _ hx
  | str s => exact List.mem_cons_of_mem _ hx
  | arr xs => exact List.mem_cons_of_mem _ hx

lemma metricErrors_mem_of_invalid :
    ∀ (ms : List JValue) (start i : Nat) (m : JValue) (kvs : List (String × JValue))
      (e : String), ms[i]? = some m → m = .obj kvs → is_valid_metric m = some e →
      ("metrics[" ++ toString (start + i) ++ "] " ++ e) ∈ metricErrors start ms := by
  intro ms
  induction ms with
  | nil => intro start i m kvs e h _ _; simp at h
  | cons m0 rest ih =>
    intro start i m kvs e h hobj he
    cases i with
    | zero =>
      have hm : m0 = m := by simpa using h
      subst hm
      subst hobj
      simp only [metricErrors, he, Nat.add_zero]
      exact List.mem_cons_self _ _
    | succ j =>
      have h' : rest[j]? = some m := by simpa using h
      have hmem := ih (start + 1) j m kvs e h' hobj he
      have harith : start + (j + 1) = (start + 1) + j := by omega
      rw [harith]
      exact metricErrors_cons_superset m0 rest start _ hmem

/-- Claim C8: a payload object whose `metrics` array only holds metrics that
`_is_valid_metric` accepts validates with no errors; conversely every
dict element of the array that `_is_valid_metric` rejects contributes the
error string indexed by its 0-based position. -/
theorem validate_payload_spec :
    (∀ (fields : List (String × JValue)) (ms : List JValue),
        dictGet fields "metrics" = some (.arr ms) →
        (∀ m ∈ ms, is_valid_metric m = none) →
        validate_payload (.obj fields) = []) ∧
    (∀ (fields : List (String × JValue)) (ms : List JValue) (i : Nat) (m : JValue)
        (kvs : List (String × JValue)) (e : String),
        dictGet fields "metrics" = some (.arr ms) → ms[i]? = some m →
        m = .obj kvs → is_valid_metric m = some e →
        ("metrics[" ++ toString i ++ "] " ++ e) ∈ validate_payload (.obj fields)) := by
  constructor
  · intro fields ms hms hall
    simp [validate_payload, hms, metricErrors_nil_of_valid 0 ms hall]
  · intro fields ms i m kvs e hms hi hobj he
    have hmem := metricErrors_mem_of_invalid ms 0 i m kvs e hi hobj he
    simpa [validate_payload, hms, Nat.zero_add] using hmem

/-- Witness for C8 on a one-valid-metric payload and on a mixed payload
whose second metric has an invalid name. -/
theorem validate_payload_spec_witness :
    validate_payload (.obj [("metrics", .arr [scope1Metric])]) = [] ∧
    ("metrics[" ++ toString 1 ++ "] " ++ "invalid name") ∈
      validate_payload (.obj [("metrics", .arr [scope1Metric, invalidNameMetric])]) :=
  ⟨validate_payload_spec.1 _ _ rfl (by decide),
   validate_payload_spec.2 _ _ 1 _ [("name", .str "Scope 9")] _ rfl rfl rfl rfl⟩

/-- Claim C9: any provider identifier outside
`{openai-compatible, cohere, ollama}` makes `llm_complete` raise the
`Unknown PROVIDER` configuration error; no backend request action is
produced for any message list. -/
theorem unknown_provider_raises (provider model : String) (messages : List Msg)
    (h1 : provider ≠ "openai-compatible") (h2 : provider ≠ "cohere")
    (h3 : provider ≠ "ollama") :
    llm_complete provider model messages =
      .raiseUnknownProvider ("Unknown PROVIDER: " ++ provider) := by
  simp [llm_complete, h1, h2, h3]

/-- Witness for C9 at the provider string `"foo"`. -/
theorem unknown_provider_raises_witness :
    llm_complete "foo" "gpt-4.1-mini" [] =
      .raiseUnknownProvider ("Unknown PROVIDER: " ++ "foo") :=
  unknown_provider_raises "foo" "gpt-4.1-mini" []
    (by decide) (by decide) (by decide)

/-- The length invariant the `limit` cap maintains: a scanner's
fall-through value stays strictly below the cap, and an early return
carries exactly `limit` snippets. -/
def capInv (limit : Nat) : Except (List String) (List String) → Prop
  | .ok o => o.length < limit
  | .error o => o.length = limit

lemma pushSnippet_inv {limit : Nat} {out : List String} (s : String)
    (hout : out.length < limit) : capInv limit (pushSnippet limit out s) := by
  show capInv limit
    (if limit ≤ (out ++ [s]).length then .error (out ++ [s]) else .ok (out ++ [s]))
  by_cases h : limit ≤ (out ++ [s]).length
  · rw [if_pos h]
    simp only [capInv, List.length_append, List.length_singleton] at h ⊢
    omega
  · rw [if_neg h]
    simp only [capInv, List.length_append, List.length_singleton] at h ⊢
    omega

lemma scanRows_inv (p : Int) (limit : Nat) :
    ∀ (rows : List (List (Option String))) (out : List String),
      out.length < limit → capInv limit (scanRows p limit rows out) := by
  intro rows
  induction rows with
  | nil => intro out hout; simpa [scanRows, capInv] using hout
  | cons row rest ih =>
    intro out hout
    simp only [scanRows]
    split
    · have hp := pushSnippet_inv
        ("[p" ++ toString p ++ "] " ++ joinSpace (row.filterMap id)) hout
      cases h : pushSnippet limit out ("[p" ++ toString p ++ "] " ++ joinSpace (row.filterMap id)) with
      | error o => rw [h] at hp; exact hp
      | ok o => rw [h] at hp; exact ih o hp
    · exact ih out hout

lemma scanTables_inv (p : Int) (limit : Nat) :
    ∀ (tables : List (List (List (Option String)))) (out : List String),
      out.length < limit → capInv limit (scanTables p limit tables out) := by
  intro tables
  induction tables with
  | nil => intro out hout; simpa [scanTables, capInv] using hout
  | cons tbl rest ih =>
    intro out hout
    simp only [scanTables]
    have hr := scanRows_inv p limit (tbl.take 5) out hout
    cases h : scanRows p limit (tbl.take 5) out with
    | error o => rw [h] at hr; exact hr
    | ok o => rw [h] at hr; exact ih o hr

lemma scanLines_inv (p : Int) (lines : List String) (limit : Nat) :
    ∀ (todo : List String) (i : Nat) (out : List String),
      out.length < limit → capInv limit (scanLines p lines limit todo i out) := by
  intro todo
  induction todo with
  | nil => intro i out hout; simpa [scanLines, capInv] using hout
  | cons ln rest ih =>
    intro i out hout
    simp only [scanLines]
    split
    · split
      · have hp := pushSnippet_inv
          ("[p" ++ toString p ++ "] " ++
            stripStr (joinSpace ((lines.drop (i - 2)).take (i + 3 - (i - 2))))) hout
        cases h : pushSnippet limit out ("[p" ++ toString p ++ "] " ++
            stripStr (joinSpace ((lines.drop (i - 2)).take (i + 3 - (i - 2))))) with
        | error o => rw [h] at hp; exact hp
        | ok o => rw [h] at hp; exact ih (i + 1) o hp
      · exact ih (i + 1) out hout
    · exact ih (i + 1) out hout

lemma scanPages_inv (limit : Nat) :
    ∀ (pages : List Page) (out : List String),
      out.length < limit → capInv limit (scanPages limit pages out) := by
  intro pages
  induction pages with
  | nil => intro out hout; simpa [scanPages, capInv] using hout
  | cons pg rest ih =>
    intro out hout
    simp only [scanPages]
    have hl := scanLines_inv pg.page pg.lines limit pg.lines 0 out hout
    cases h : scanLines pg.page pg.lines limit pg.lines 0 out with
    | error o => rw [h] at hl; exact hl
    | ok o =>
      rw [h] at hl
      have ht := scanTables_inv pg.page limit pg.tables o hl
      show capInv limit
        (match scanTables pg.page limit pg.tables o with
         | .error o2 => .error o2
         | .ok o2 => scanPages limit rest o2)
      cases h2 : scanTables pg.page limit pg.tables o with
      | error o2 => rw [h2] at ht; exact ht
      | ok o2 => rw [h2] at ht; exact ih o2 ht

/-- Claim C5, counterexample: `shortlist_snippets` performs no deduplication —
two identical hit lines yield two identical snippets — and with
`limit = 0` the post-append early return still emits one snippet, so the
cap can be exceeded as well. -/
theorem shortlist_duplicates_cex :
    shortlist_snippets ⟨[⟨1, ["scope 1", "scope 1"], []⟩]⟩ 30 =
      ["[p1] scope 1 scope 1", "[p1] scope 1 scope 1"] ∧
    (shortlist_snippets ⟨[⟨1, ["scope 1"], []⟩]⟩ 0).length = 1 :=
  ⟨rfl, rfl⟩

/-- Claim C5, amended: for every corpus and every positive limit,
`shortlist_snippets` returns at most `limit` snippets (duplicates are not
removed; the cap alone is guaranteed). -/
theorem shortlist_cap (e : Extracted) (limit : Nat) (h : 1 ≤ limit) :
    (shortlist_snippets e limit).length ≤ limit := by
  unfold shortlist_snippets
  have hinv := scanPages_inv limit e.pages [] (by simpa using h)
  cases hsp : scanPages limit e.pages [] with
  | error o =>
    rw [hsp] at hinv
    exact le_of_eq hinv
  | ok o => simp [List.length_take]

/-- Witness for C5's amended theorem at the default limit. -/
theorem shortlist_cap_witness :
    (shortlist_snippets ⟨[⟨1, ["scope 1", "scope 1"], []⟩]⟩ 30).length ≤ 30 :=
  shortlist_cap _ _ (by decide)

/-- Claim C6, counterexample: the bare line `"scope"` has no digit, no year and
no number-unit pattern, so the claimed predicate rejects it, yet the code
shortlists it (its keyword test requires no digit); conversely
`"ghg emissions: 9"` satisfies the claimed keyword-plus-digit test but the
code ignores it (its keyword set is only `scope`/`co2e`). -/
theorem line_hit_condition_cex :
    shortlist_snippets ⟨[⟨1, ["scope"], []⟩]⟩ 30 = ["[p1] scope"] ∧
    specLineHit "scope" = false ∧
    specLineHit "ghg emissions: 9" = true ∧
    shortlist_snippets ⟨[⟨1, ["ghg emissions: 9"], []⟩]⟩ 30 = [] :=
  ⟨rfl, by decide, by decide, rfl⟩

/-- Claim C6, amended: a line is selected as a shortlist hit exactly when its
lowercased form contains `"scope"` or `"co2e"`, or the line matches
`\b20\d{2}\b`, or its lowercased form matches
`\b\d[\d,\.]*\s*(tco2e|ktco2e|mtco2e)\b` — no digit requirement
accompanies the keyword test and the keyword set has no
`"emissions"`/`"ghg"` entries.  Characterised on a one-line page: the
snippet (the page tag plus the stripped line, the line being its own
window) is produced exactly under that condition, for a nonempty strip. -/
theorem line_hit_condition (n : Int) (ln : String) :
    shortlist_snippets ⟨[⟨n, [ln], []⟩]⟩ 30 =
      if (containsSub (lowerStr ln).data "scope".data ||
          containsSub (lowerStr ln).data "co2e".data ||
          searchYear ln || searchNumUnit (lowerStr ln)) = true ∧ stripStr ln ≠ ""
      then ["[p" ++ toString n ++ "] " ++ stripStr ln] else [] := by
  by_cases h1 : lineHit ln
  · by_cases h2 : stripStr ln = ""
    · rw [if_neg (fun hc => hc.2 h2)]
      simp [shortlist_snippets, scanPages, scanLines, scanTables, joinSpace, h1, h2]
    · rw [if_pos ⟨h1, h2⟩]
      simp [shortlist_snippets, scanPages, scanLines, scanTables, joinSpace,
        pushSnippet, h1, h2]
  · rw [if_neg (fun hc => h1 hc.1)]
    simp [shortlist_snippets, scanPages, scanLines, scanTables, h1]

lemma scanTables_trunc (p : Int) (limit : Nat) :
    ∀ (tables : List (List (List (Option String)))) (out : List String),
      scanTables p limit (tables.map (List.take 5)) out = scanTables p limit tables out := by
  intro tables
  induction tables with
  | nil => intro out; rfl
  | cons tbl rest ih =>
    intro out
    simp only [List.map_cons, scanTables, List.take_take, min_self]
    cases h : scanRows p limit (tbl.take 5) out with
    | error o => rfl
    | ok o => exact ih o

lemma scanPages_trunc (limit : Nat) :
    ∀ (pages : List Page) (out : List String),
      scanPages limit (pages.map truncPage) out = scanPages limit pages out := by
  intro pages
  induction pages with
  | nil => intro out; rfl
  | cons pg rest ih =>
    intro out
    simp only [List.map_cons, scanPages, truncPage]
    cases h : scanLines pg.page pg.lines limit pg.lines 0 out with
    | error o => rfl
    | ok o =>
      show (match scanTables pg.page limit (pg.tables.map (List.take 5)) o with
            | Except.error o2 => Except.error o2
            | Except.ok o2 => scanPages limit (rest.map truncPage) o2) =
           (match scanTables pg.page limit pg.tables o with
            | Except.error o2 => Except.error o2
            | Except.ok o2 => scanPages limit rest o2)
      rw [scanTables_trunc]
      cases h2 : scanTables pg.page limit pg.tables o with
      | error o2 => rfl
      | ok o2 => exact ih o2

/-- Claim C10: rows of a table at index five or beyond never contribute a
snippet — truncating every table of the corpus to its first five rows
leaves the shortlist unchanged, for every corpus and limit. -/
theorem tables_scanned_five_rows (e : Extracted) (limit : Nat) :
    shortlist_snippets (truncTables e) limit = shortlist_snippets e limit := by
  unfold shortlist_snippets truncTables
  rw [scanPages_trunc]
